import Mathlib

/-!
Shallow embedding of `src/src/main.rs` of the swiftbar-clocks utility, and
proofs of the specification claims about it.

Conventions of the embedding:
* Rust `u32` values are modelled as `Nat`; the one place where `u32`
  overflow could matter (`hour + 1` inside `get_accurate_clock_icon`) carries
  an explicit `% 2 ^ 32` (release-mode wrapping semantics).
* The `&'static str` glyph constants become `String` constants holding the
  same Unicode code points.
* External collaborators (the filesystem, the YAML parser, the HOME
  environment variable, and the chrono / chrono_tz timezone machinery) are
  passed in as explicit function arguments, so the repository's own control
  flow is what the definitions capture.
-/

/-- Clock face U+1F55B, twelve o'clock (`CLOCK_1200` in the source). -/
def CLOCK_1200 : String := String.singleton (Char.ofNat 0x1F55B)

/-- Clock face U+1F567, twelve-thirty. -/
def CLOCK_1230 : String := String.singleton (Char.ofNat 0x1F567)

/-- Clock face U+1F550, one o'clock. -/
def CLOCK_0100 : String := String.singleton (Char.ofNat 0x1F550)

/-- Clock face U+1F55C, one-thirty. -/
def CLOCK_0130 : String := String.singleton (Char.ofNat 0x1F55C)

/-- Clock face U+1F551, two o'clock. -/
def CLOCK_0200 : String := String.singleton (Char.ofNat 0x1F551)

/-- Clock face U+1F55D, two-thirty. -/
def CLOCK_0230 : String := String.singleton (Char.ofNat 0x1F55D)

/-- Clock face U+1F552, three o'clock. -/
def CLOCK_0300 : String := String.singleton (Char.ofNat 0x1F552)

/-- Clock face U+1F55E, three-thirty. -/
def CLOCK_0330 : String := String.singleton (Char.ofNat 0x1F55E)

/-- Clock face U+1F553, four o'clock. -/
def CLOCK_0400 : String := String.singleton (Char.ofNat 0x1F553)

/-- Clock face U+1F55F, four-thirty. -/
def CLOCK_0430 : String := String.singleton (Char.ofNat 0x1F55F)

/-- Clock face U+1F554, five o'clock. -/
def CLOCK_0500 : String := String.singleton (Char.ofNat 0x1F554)

/-- Clock face U+1F560, five-thirty. -/
def CLOCK_0530 : String := String.singleton (Char.ofNat 0x1F560)

/-- Clock face U+1F555, six o'clock. -/
def CLOCK_0600 : String := String.singleton (Char.ofNat 0x1F555)

/-- Clock face U+1F561, six-thirty. -/
def CLOCK_0630 : String := String.singleton (Char.ofNat 0x1F561)

/-- Clock face U+1F556, seven o'clock. -/
def CLOCK_0700 : String := String.singleton (Char.ofNat 0x1F556)

/-- Clock face U+1F562, seven-thirty. -/
def CLOCK_0730 : String := String.singleton (Char.ofNat 0x1F562)

/-- Clock face U+1F557, eight o'clock. -/
def CLOCK_0800 : String := String.singleton (Char.ofNat 0x1F557)

/-- Clock face U+1F563, eight-thirty. -/
def CLOCK_0830 : String := String.singleton (Char.ofNat 0x1F563)

/-- Clock face U+1F558, nine o'clock. -/
def CLOCK_0900 : String := String.singleton (Char.ofNat 0x1F558)

/-- Clock face U+1F564, nine-thirty. -/
def CLOCK_0930 : String := String.singleton (Char.ofNat 0x1F564)

/-- Clock face U+1F559, ten o'clock. -/
def CLOCK_1000 : String := String.singleton (Char.ofNat 0x1F559)

/-- Clock face U+1F565, ten-thirty. -/
def CLOCK_1030 : String := String.singleton (Char.ofNat 0x1F565)

/-- Clock face U+1F55A, eleven o'clock. -/
def CLOCK_1100 : String := String.singleton (Char.ofNat 0x1F55A)

/-- Clock face U+1F566, eleven-thirty. -/
def CLOCK_1130 : String := String.singleton (Char.ofNat 0x1F566)

/-- The 24 clock glyph constants defined at the top of `main.rs`, in source
order. -/
def glyphList : List String :=
  [CLOCK_1200, CLOCK_1230, CLOCK_0100, CLOCK_0130, CLOCK_0200, CLOCK_0230,
   CLOCK_0300, CLOCK_0330, CLOCK_0400, CLOCK_0430, CLOCK_0500, CLOCK_0530,
   CLOCK_0600, CLOCK_0630, CLOCK_0700, CLOCK_0730, CLOCK_0800, CLOCK_0830,
   CLOCK_0900, CLOCK_0930, CLOCK_1000, CLOCK_1030, CLOCK_1100, CLOCK_1130]

/-- The `rounded_minute` local of `get_accurate_clock_icon`: minutes below 15
give 0, minutes below 45 give 30, the rest give 0. -/
def rounded_minute (minute : Nat) : Nat :=
  if minute < 15 then 0 else if minute < 45 then 30 else 0

/-- The `display_hour` local of `get_accurate_clock_icon`: when `minute >= 45`
the hour is advanced by one (with `u32` wrap-around made explicit as
`% 2 ^ 32`) before the reduction mod 12. -/
def display_hour (hour minute : Nat) : Nat :=
  if 45 ≤ minute then ((hour + 1) % 2 ^ 32) % 12 else hour % 12

/-- The explicit arms of the `match (display_hour, rounded_minute)` table in
`get_accurate_clock_icon`, in source order; `none` stands for the wildcard
arm, so that reachability of the defensive default can be stated. -/
def clockTableEntry (dh rm : Nat) : Option String :=
  match dh, rm with
  | 12, 0 | 0, 0 => some CLOCK_1200
  | 12, 30 | 0, 30 => some CLOCK_1230
  | 1, 0 => some CLOCK_0100
  | 1, 30 => some CLOCK_0130
  | 2, 0 => some CLOCK_0200
  | 2, 30 => some CLOCK_0230
  | 3, 0 => some CLOCK_0300
  | 3, 30 => some CLOCK_0330
  | 4, 0 => some CLOCK_0400
  | 4, 30 => some CLOCK_0430
  | 5, 0 => some CLOCK_0500
  | 5, 30 => some CLOCK_0530
  | 6, 0 => some CLOCK_0600
  | 6, 30 => some CLOCK_0630
  | 7, 0 => some CLOCK_0700
  | 7, 30 => some CLOCK_0730
  | 8, 0 => some CLOCK_0800
  | 8, 30 => some CLOCK_0830
  | 9, 0 => some CLOCK_0900
  | 9, 30 => some CLOCK_0930
  | 10, 0 => some CLOCK_1000
  | 10, 30 => some CLOCK_1030
  | 11, 0 => some CLOCK_1100
  | 11, 30 => some CLOCK_1130
  | _, _ => none

/-- `get_accurate_clock_icon` from `main.rs`: bucket the minute, compute the
display hour, and look the pair up in the match table, the wildcard arm
defaulting to `CLOCK_1200`. -/
def get_accurate_clock_icon (hour minute : Nat) : String :=
  (clockTableEntry (display_hour hour minute) (rounded_minute minute)).getD CLOCK_1200

/-- The minute bucket exactly as the spec words it: minutes 0-14 round down
to :00, minutes 15-44 round to :30, minutes 45-59 round up to the next
hour. -/
def spec_bucket (minute : Nat) : Nat :=
  if minute ≤ 14 then 0 else if minute ≤ 44 then 30 else 0

/-- The lookup hour exactly as the spec words it: advanced by one mod 12 when
minute ≥ 45, otherwise reduced mod 12, and 0 mapped to 12 for table
lookup. -/
def spec_lookup_hour (hour minute : Nat) : Nat :=
  let reduced := if 45 ≤ minute then (hour + 1) % 12 else hour % 12
  if reduced = 0 then 12 else reduced

/-- The spec-side lookup table over (hour in 1..12, bucket in {0, 30}); the
spec says any pair not in the table defaults to the 12:00 glyph. -/
def spec_table (h b : Nat) : String :=
  match h, b with
  | 12, 0 => CLOCK_1200
  | 12, 30 => CLOCK_1230
  | 1, 0 => CLOCK_0100
  | 1, 30 => CLOCK_0130
  | 2, 0 => CLOCK_0200
  | 2, 30 => CLOCK_0230
  | 3, 0 => CLOCK_0300
  | 3, 30 => CLOCK_0330
  | 4, 0 => CLOCK_0400
  | 4, 30 => CLOCK_0430
  | 5, 0 => CLOCK_0500
  | 5, 30 => CLOCK_0530
  | 6, 0 => CLOCK_0600
  | 6, 30 => CLOCK_0630
  | 7, 0 => CLOCK_0700
  | 7, 30 => CLOCK_0730
  | 8, 0 => CLOCK_0800
  | 8, 30 => CLOCK_0830
  | 9, 0 => CLOCK_0900
  | 9, 30 => CLOCK_0930
  | 10, 0 => CLOCK_1000
  | 10, 30 => CLOCK_1030
  | 11, 0 => CLOCK_1100
  | 11, 30 => CLOCK_1130
  | _, _ => CLOCK_1200

/-- C1: on the documented domain the glyph returned by the code is exactly the
spec's table entry at the spec's lookup hour (0 treated as 12) and the spec's
three-way minute bucket. -/
theorem clock_icon_matches_spec_table :
    ∀ hour, hour < 24 → ∀ minute, minute < 60 →
      get_accurate_clock_icon hour minute =
        spec_table (spec_lookup_hour hour minute) (spec_bucket minute) := by
  decide

/-- Witness for `clock_icon_matches_spec_table` at hour 0, minute 10. -/
theorem clock_icon_matches_spec_table_witness :
    get_accurate_clock_icon 0 10 = spec_table (spec_lookup_hour 0 10) (spec_bucket 10) :=
  clock_icon_matches_spec_table 0 (by decide) 10 (by decide)

/-- C2: on the documented domain an explicit table arm always matches (the
defensive wildcard is unreachable), the 24 glyphs are pairwise distinct, and
the returned glyph is one of them. -/
theorem clock_icon_total_in_range :
    glyphList.Nodup ∧ glyphList.length = 24 ∧
      ∀ hour, hour < 24 → ∀ minute, minute < 60 →
        (clockTableEntry (display_hour hour minute) (rounded_minute minute)).isSome = true ∧
          get_accurate_clock_icon hour minute ∈ glyphList := by
  decide

/-- Witness for `clock_icon_total_in_range` at hour 5, minute 20. -/
theorem clock_icon_total_in_range_witness :
    (clockTableEntry (display_hour 5 20) (rounded_minute 20)).isSome = true ∧
      get_accurate_clock_icon 5 20 ∈ glyphList :=
  clock_icon_total_in_range.2.2 5 (by decide) 20 (by decide)

/-- C7: at hour 14, minute 47 the minute bucket rounds up to :00, the lookup
hour is (14 + 1) mod 12 = 3, and the selector returns the 3:00 glyph, which
differs from the 3:30 glyph. -/
theorem clock_icon_at_14_47 :
    get_accurate_clock_icon 14 47 = CLOCK_0300 ∧
      rounded_minute 47 = 0 ∧ display_hour 14 47 = 3 ∧ CLOCK_0300 ≠ CLOCK_0330 := by
  decide

/-- Every pair of an hour already reduced mod 12 and a bucket in {0, 30} hits
an explicit arm of the match table, and its entry is one of the 24 glyphs. -/
theorem clock_table_covers :
    ∀ dh, dh < 12 →
      ((clockTableEntry dh 0).isSome = true ∧ (clockTableEntry dh 0).getD CLOCK_1200 ∈ glyphList) ∧
      ((clockTableEntry dh 30).isSome = true ∧ (clockTableEntry dh 30).getD CLOCK_1200 ∈ glyphList) := by
  decide

/-- The minute bucket computed by the code is 0 or 30 for every input. -/
theorem rounded_minute_cases (minute : Nat) :
    rounded_minute minute = 0 ∨ rounded_minute minute = 30 := by
  unfold rounded_minute
  split
  · exact Or.inl rfl
  · split
    · exact Or.inr rfl
    · exact Or.inl rfl

/-- The display hour computed by the code is always below 12. -/
theorem display_hour_lt (hour minute : Nat) : display_hour hour minute < 12 := by
  unfold display_hour
  split <;> exact Nat.mod_lt _ (by decide)

/-- C9: the selector is total over all 32-bit inputs, hour 24 and beyond and
minute 60 and beyond included: the `u32` addition wraps, the result is reduced
mod 12, the bucket is always 0 or 30, so an explicit table arm always matches
and one of the 24 glyphs is returned. -/
theorem clock_icon_total_u32 (hour minute : Nat)
    (_hh : hour < 2 ^ 32) (_hm : minute < 2 ^ 32) :
    get_accurate_clock_icon hour minute ∈ glyphList := by
  have hdh := display_hour_lt hour minute
  have hcov := clock_table_covers (display_hour hour minute) hdh
  rcases rounded_minute_cases minute with h0 | h30
  · simpa [get_accurate_clock_icon, h0] using hcov.1.2
  · simpa [get_accurate_clock_icon, h30] using hcov.2.2

/-- Witness for `clock_icon_total_u32` at the largest `u32` hour, where the
`hour + 1` wrap-around actually happens, and minute 59. -/
theorem clock_icon_total_u32_witness :
    get_accurate_clock_icon 4294967295 59 ∈ glyphList :=
  clock_icon_total_u32 4294967295 59 (by decide) (by decide)

/-- `CityConfig` from `main.rs`: a display name and a timezone identifier. -/
structure CityConfig where
  name : String
  timezone : String
deriving DecidableEq

/-- `Config` from `main.rs`: the ordered list of configured cities. -/
structure Config where
  cities : List CityConfig
deriving DecidableEq

/-- Rust `str::starts_with`, modelled on the underlying character list. -/
def strStartsWith (s pre : String) : Bool := pre.data.isPrefixOf s.data

/-- Rust `str::ends_with`, modelled on the underlying character list. -/
def strEndsWith (s suf : String) : Bool := suf.data.isSuffixOf s.data

/-- The slice `&path[n..]` (with `n` counted in characters; the sliced-off
prefix "~/" is pure ASCII, so bytes and characters agree). -/
def strDrop (s : String) (n : Nat) : String := ⟨s.data.drop n⟩

/-- `PathBuf::push` semantics used when expanding `~/`: an absolute component
replaces the base, otherwise a separator is inserted unless already there. -/
def pathJoin (base rel : String) : String :=
  if strStartsWith rel "/" then rel
  else if strEndsWith base "/" then base ++ rel
  else base ++ "/" ++ rel

/-- The hardcoded default configuration built at the end of `load_config`. -/
def defaultConfig : Config :=
  ⟨[⟨"New York", "America/New_York"⟩, ⟨"London", "Europe/London"⟩, ⟨"Tokyo", "Asia/Tokyo"⟩]⟩

/-- `load_config` from `main.rs`. The filesystem (`fs::read_to_string`), the
YAML parser (`serde_yaml::from_str`), and the HOME environment variable are
external collaborators and enter as the arguments `read`, `parse` and `home`;
a failed read or a failed parse both leave the `Option.bind` at `none`,
exactly as the nested `if let Ok(..)` chains fall through in the source. -/
def load_config (read : String → Option String) (parse : String → Option Config)
    (home : Option String) (path : String) : Config :=
  match (read path).bind parse with
  | some config => config
  | none =>
    if strStartsWith path "~/" then
      match home with
      | some h =>
        match (read (pathJoin h (strDrop path 2))).bind parse with
        | some config => config
        | none => defaultConfig
      | none => defaultConfig
    else defaultConfig

/-- Instrumentation of `load_config`: the list of paths it passes to
`fs::read_to_string`, in call order, following exactly the control flow of
the source (the second read happens only when the first read-and-parse
attempt failed, the path starts with "~/", and HOME is set). -/
def load_config_reads (read : String → Option String) (parse : String → Option Config)
    (home : Option String) (path : String) : List String :=
  match (read path).bind parse with
  | some _ => [path]
  | none =>
    if strStartsWith path "~/" then
      match home with
      | some h => [path, pathJoin h (strDrop path 2)]
      | none => [path]
    else [path]

/-- C3: the first successfully parsed candidate is returned as-is (so the
returned city list is the parsed document's list in its order), and when every
candidate is missing, unreadable or unparsable the loader returns the built-in
default of exactly three cities. -/
theorem load_config_fallback_and_first_success
    (read : String → Option String) (parse : String → Option Config)
    (home : Option String) (path : String) :
    (∀ c, (read path).bind parse = some c → load_config read parse home path = c) ∧
    ((read path).bind parse = none →
      (strStartsWith path "~/" = false → load_config read parse home path = defaultConfig) ∧
      (home = none → load_config read parse home path = defaultConfig) ∧
      (∀ h, home = some h →
        (read (pathJoin h (strDrop path 2))).bind parse = none →
          load_config read parse home path = defaultConfig) ∧
      (∀ h c, home = some h → strStartsWith path "~/" = true →
        (read (pathJoin h (strDrop path 2))).bind parse = some c →
          load_config read parse home path = c)) ∧
    defaultConfig.cities =
      [⟨"New York", "America/New_York"⟩, ⟨"London", "Europe/London"⟩, ⟨"Tokyo", "Asia/Tokyo"⟩] ∧
    defaultConfig.cities.length = 3 := by
  refine ⟨?_, ?_, rfl, rfl⟩
  · intro c hc
    simp [load_config, hc]
  · intro hfail
    refine ⟨?_, ?_, ?_, ?_⟩
    · intro hsw
      simp [load_config, hfail, hsw]
    · intro hnone
      simp only [load_config, hfail]
      split <;> simp [hnone]
    · intro h hh hsecond
      simp only [load_config, hfail]
      split <;> simp [hh, hsecond]
    · intro h c hh hsw hsecond
      simp [load_config, hfail, hh, hsw, hsecond]

/-- Witness for `load_config_fallback_and_first_success`: with no readable
source and HOME unset, the loader yields the built-in default. -/
theorem load_config_fallback_witness :
    load_config (fun _ => none) (fun _ => none) none "cfg.yaml" = defaultConfig :=
  ((load_config_fallback_and_first_success (fun _ => none) (fun _ => none) none
    "cfg.yaml").2.1 rfl).2.1 rfl

/-- C4: when the first read-and-parse attempt fails and the path starts with
"~/", the loader retries exactly once with the shorthand replaced by the HOME
value, and that retry's outcome decides the result (default on failure); with
HOME unset the retry is skipped; when the path has no "~/" shorthand or the
first attempt succeeds, only one read ever happens. -/
theorem load_config_home_retry
    (read : String → Option String) (parse : String → Option Config)
    (home : Option String) (path : String) :
    ((read path).bind parse = none → strStartsWith path "~/" = true →
      (∀ h, home = some h →
        load_config read parse home path =
          ((read (pathJoin h (strDrop path 2))).bind parse).getD defaultConfig ∧
        load_config_reads read parse home path = [path, pathJoin h (strDrop path 2)]) ∧
      (home = none →
        load_config read parse home path = defaultConfig ∧
        load_config_reads read parse home path = [path])) ∧
    ((read path).bind parse = none → strStartsWith path "~/" = false →
      load_config_reads read parse home path = [path]) ∧
    (∀ c, (read path).bind parse = some c →
      load_config_reads read parse home path = [path]) := by
  refine ⟨?_, ?_, ?_⟩
  · intro hfail hsw
    constructor
    · intro h hh
      cases hsecond : (read (pathJoin h (strDrop path 2))).bind parse with
      | none => simp [load_config, load_config_reads, hfail, hsw, hh, hsecond]
      | some c => simp [load_config, load_config_reads, hfail, hsw, hh, hsecond]
    · intro hnone
      simp [load_config, load_config_reads, hfail, hsw, hnone]
  · intro hfail hsw
    simp [load_config_reads, hfail, hsw]
  · intro c hc
    simp [load_config_reads, hc]

/-- Witness for `load_config_home_retry`: the first attempt on the literal
"~/x.yaml" fails, HOME is "/home/u", and the retry at "/home/u/x.yaml"
parses, so its configuration is returned. -/
theorem load_config_home_retry_witness :
    load_config (fun p => if p = "/home/u/x.yaml" then some "yaml" else none)
      (fun s => if s = "yaml" then some ⟨[⟨"A", "Zone/A"⟩]⟩ else none)
      (some "/home/u") "~/x.yaml" = ⟨[⟨"A", "Zone/A"⟩]⟩ :=
  (((load_config_home_retry (fun p => if p = "/home/u/x.yaml" then some "yaml" else none)
    (fun s => if s = "yaml" then some ⟨[⟨"A", "Zone/A"⟩]⟩ else none)
    (some "/home/u") "~/x.yaml").1 (by decide) (by decide)).1 "/home/u" rfl).1.trans
    (by decide)

/-- Rust `format!("{:02}", n)`: decimal digits, zero-padded to width 2. -/
def pad2 (n : Nat) : String :=
  if n < 10 then "0" ++ toString n else toString n

/-- One city line of the output, `format!("{:02}:{:02} {}", hour, minute, name)`. -/
def cityLine (h m : Nat) (name : String) : String :=
  pad2 h ++ ":" ++ pad2 m ++ " " ++ name

/-- The `eprintln!("Warning: Invalid timezone '{}' for {}", ..)` diagnostic. -/
def warningLine (tz name : String) : String :=
  "Warning: Invalid timezone \x27" ++ tz ++ "\x27 for " ++ name

/-- The per-city loop of `main`. The chrono_tz resolution plus conversion of
the captured instant is the external collaborator `resolve`: it returns the
(hour, minute) of the captured instant in the named timezone, or `none` when
`city.timezone.parse::<Tz>()` fails. The accumulating `out` string mirrors
`output.push_str`; `warns` records the `eprintln!` diagnostics in emission
order. -/
def renderLoop (resolve : String → Option (Nat × Nat)) :
    List CityConfig → String → List String → String × List String
  | [], out, warns => (out, warns)
  | c :: rest, out, warns =>
    match resolve c.timezone with
    | some hm => renderLoop resolve rest (out ++ cityLine hm.1 hm.2 c.name ++ "\n") warns
    | none => renderLoop resolve rest out (warns ++ [warningLine c.timezone c.name])

/-- The whole rendering of `main` after config loading: the glyph line, the
"---" separator line, the RFC-2822 timestamp line (the timestamp string
itself comes from chrono and is the parameter `ts`), then the city loop. -/
def renderOutput (glyph ts : String) (resolve : String → Option (Nat × Nat))
    (cities : List CityConfig) : String × List String :=
  renderLoop resolve cities (glyph ++ "\n" ++ "---\n" ++ ts ++ "\n") []

/-- Declarative description of the city lines: one line per city whose
timezone resolves, in configured order. -/
def cityLinesOf (resolve : String → Option (Nat × Nat)) (cities : List CityConfig) :
    List String :=
  cities.filterMap fun c => (resolve c.timezone).map fun hm => cityLine hm.1 hm.2 c.name

/-- Declarative description of the warnings: one per city whose timezone does
not resolve, in configured order. -/
def warningsOf (resolve : String → Option (Nat × Nat)) (cities : List CityConfig) :
    List String :=
  cities.filterMap fun c =>
    match resolve c.timezone with
    | some _ => none
    | none => some (warningLine c.timezone c.name)

/-- Each line terminated by a newline, concatenated. -/
def concatLines : List String → String
  | [] => ""
  | l :: rest => l ++ "\n" ++ concatLines rest

/-- The accumulating loop equals its declarative description: the final output
is the prefix followed by the newline-terminated resolvable city lines in
order, and the warnings are exactly those of the unresolvable cities in
order. -/
theorem renderLoop_spec (resolve : String → Option (Nat × Nat))
    (cities : List CityConfig) (out : String) (warns : List String) :
    renderLoop resolve cities out warns =
      (out ++ concatLines (cityLinesOf resolve cities), warns ++ warningsOf resolve cities) := by
  induction cities generalizing out warns with
  | nil => simp [renderLoop, cityLinesOf, warningsOf, concatLines]
  | cons c rest ih =>
    cases hr : resolve c.timezone with
    | some hm =>
      simp [renderLoop, hr, ih, cityLinesOf, warningsOf, concatLines,
        List.filterMap_cons, String.append_assoc]
    | none =>
      simp [renderLoop, hr, ih, cityLinesOf, warningsOf, List.filterMap_cons]

/-- C6: the rendered block is the glyph line, then the separator line, then
the timestamp line, then one `HH:MM name` line (zero-padded via `pad2`) per
resolvable city in configured order. -/
theorem render_output_structure (glyph ts : String)
    (resolve : String → Option (Nat × Nat)) (cities : List CityConfig) :
    renderOutput glyph ts resolve cities =
      (glyph ++ "\n" ++ "---\n" ++ ts ++ "\n" ++ concatLines (cityLinesOf resolve cities),
       warningsOf resolve cities) := by
  rw [renderOutput, renderLoop_spec]
  simp [String.append_assoc]

/-- C8: with an empty city list the block is exactly the glyph line, the
separator line and the timestamp line, with zero city lines and zero
warnings. -/
theorem render_empty_city_list (glyph ts : String)
    (resolve : String → Option (Nat × Nat)) :
    renderOutput glyph ts resolve [] = (glyph ++ "\n" ++ "---\n" ++ ts ++ "\n", []) :=
  rfl

/-- C5: warnings are exactly one per unresolvable city in configured order,
each carrying the offending timezone identifier and the city name; rendering
always produces a result (no abort), and for one invalid entry followed by
one valid entry the block has exactly one city line (the valid one) and the
diagnostics exactly one warning (the invalid one). -/
theorem render_skips_invalid_with_warning (glyph ts : String)
    (resolve : String → Option (Nat × Nat)) :
    (∀ cities, (renderOutput glyph ts resolve cities).2 = warningsOf resolve cities) ∧
    (∀ tz name, warningLine tz name =
      "Warning: Invalid timezone \x27" ++ tz ++ "\x27 for " ++ name) ∧
    (∀ bad good h m, resolve bad.timezone = none → resolve good.timezone = some (h, m) →
      renderOutput glyph ts resolve [bad, good] =
        (glyph ++ "\n" ++ "---\n" ++ ts ++ "\n" ++ concatLines [cityLine h m good.name],
         [warningLine bad.timezone bad.name])) := by
  refine ⟨?_, fun tz name => rfl, ?_⟩
  · intro cities
    rw [renderOutput, renderLoop_spec]
    simp
  · intro bad good h m hbad hgood
    rw [renderOutput, renderLoop_spec]
    simp [cityLinesOf, warningsOf, hbad, hgood, String.append_assoc]

/-- Witness for `render_skips_invalid_with_warning`: a concrete two-city list
with the first timezone unresolvable and the second resolving to 01:02. -/
theorem render_skips_invalid_with_warning_witness :
    renderOutput "G" "T"
      (fun tz => if tz = "Good/Zone" then some (1, 2) else none)
      [⟨"BadCity", "Bad/Zone"⟩, ⟨"GoodCity", "Good/Zone"⟩] =
      ("G" ++ "\n" ++ "---\n" ++ "T" ++ "\n" ++ concatLines [cityLine 1 2 "GoodCity"],
       [warningLine "Bad/Zone" "BadCity"]) :=
  (render_skips_invalid_with_warning "G" "T"
    (fun tz => if tz = "Good/Zone" then some (1, 2) else none)).2.2
    ⟨"BadCity", "Bad/Zone"⟩ ⟨"GoodCity", "Good/Zone"⟩ 1 2 (by decide) (by decide)

/-- C10: whenever the three timezone identifiers of the built-in default
configuration resolve (they are valid IANA identifiers, resolved by the
external chrono_tz database), rendering the fallback configuration produces
exactly three city lines and zero warnings. -/
theorem default_config_renders_three (glyph ts : String)
    (resolve : String → Option (Nat × Nat))
    (h1 : (resolve "America/New_York").isSome = true)
    (h2 : (resolve "Europe/London").isSome = true)
    (h3 : (resolve "Asia/Tokyo").isSome = true) :
    (cityLinesOf resolve defaultConfig.cities).length = 3 ∧
      (renderOutput glyph ts resolve defaultConfig.cities).2 = [] := by
  rcases Option.isSome_iff_exists.mp h1 with ⟨hm1, e1⟩
  rcases Option.isSome_iff_exists.mp h2 with ⟨hm2, e2⟩
  rcases Option.isSome_iff_exists.mp h3 with ⟨hm3, e3⟩
  constructor
  · simp [cityLinesOf, defaultConfig, e1, e2, e3]
  · rw [renderOutput, renderLoop_spec]
    simp [warningsOf, defaultConfig, e1, e2, e3]

/-- Witness for `default_config_renders_three` with a resolver defined on all
identifiers. -/
theorem default_config_renders_three_witness :
    (cityLinesOf (fun _ => some (0, 0)) defaultConfig.cities).length = 3 ∧
      (renderOutput "G" "T" (fun _ => some (0, 0)) defaultConfig.cities).2 = [] :=
  default_config_renders_three "G" "T" (fun _ => some (0, 0)) rfl rfl rfl
